import Mathlib

/-!
Shallow embedding of the multisig governance program (Rust / pinocchio):
member registry mutation (`src/src/instructions/add_member.rs`,
`remove_member.rs`, `init_multisig.rs`), proposal lifecycle
(`init_proposal.rs`), vote tallying and resolution (`process_vote.rs`),
and the instruction dispatcher (`src/src/lib.rs`).

Modelling conventions:
* a 32-byte `Pubkey` is a `List Nat` of its bytes; `Pubkey::default()` is
  32 zero bytes;
* `u64` fields are `Nat`, with wrapping arithmetic made explicit via
  `add64` / `sub64` (mod 2^64) at the spots where the Rust code can wrap;
* the fixed `[T; 10]` arrays are `List`s read with `List.getD` (all
  theorems carry the `member_count ≤ 10` bound under which the Rust
  indexing is in range);
* host collaborators (clock sysvar, PDA derivation, account creation,
  signer checks) are passed in as plain arguments or omitted, per the
  spec's external-interface section;
* the `state` module (typed account views) is not part of the sources;
  where its behaviour decides a claim it is modelled from the spec,
  marked `Modelled from the spec:` on the definition.
-/

abbrev Pubkey := List Nat

def pubkeyDefault : Pubkey := List.replicate 32 0

/-- The `ProgramError` variants the program actually returns. -/
inductive ProgramError where
  | invalidInstructionData
  | invalidAccountData
  | invalidSeeds
  | accountAlreadyInitialized
deriving DecidableEq, Repr

/-- `ProposalStatus` from the state module (value set given by the spec and
by the uses in `process_vote.rs` / `init_proposal.rs`). -/
inductive ProposalStatus where
  | Active
  | Succeeded
  | Failed
deriving DecidableEq, Repr

/-- `Multisig` account state; field names and shape from the struct
literals in the in-repo tests (`init_proposal.rs`, `process_vote.rs`). -/
structure Multisig where
  creator : Pubkey
  member_count : Nat
  memeber_keys : List Pubkey
  threshold : Nat
  proposal_expiry : Nat
  total_proposals : Nat
  treasury_wallet : Pubkey
  config_bump : Nat
  treasury_bump : Nat
deriving DecidableEq, Repr

/-- `ProposalState` account state; field names and shape from the struct
literals in the in-repo tests. -/
structure ProposalState where
  proposal_id : Nat
  expiry : Nat
  result : ProposalStatus
  bump : Nat
  active_members : List Pubkey
  votes : List Nat
  created_time : Nat
deriving DecidableEq, Repr

/-- `VoteState` auxiliary per-voter record; field names from the struct
literal in the `process_vote.rs` test. -/
structure VoteState where
  has_permission : Bool
  vote_count : Nat
  bump : Nat
  votes : List Nat
deriving DecidableEq, Repr

/-- An account handle holding an (optional) `VoteState` blob: `data_len`
is the host-reported byte length, `wellformed` says whether the blob
parses as a `VoteState` record. -/
structure VoteAccount where
  data_len : Nat
  wellformed : Bool
  state : VoteState
deriving DecidableEq, Repr

/-- Modelled from the spec: `VoteState::from_account_info` lives in the
`state` module, which is not among the sources; per the spec's storage
interface the core reads records as fixed-size typed views over host
blobs, so loading the view fails (with an account-data error) exactly
when the blob is not a wellformed record of the expected size. -/
def VoteState.from_account_info (a : VoteAccount) : Except ProgramError VoteState :=
  if a.wellformed then Except.ok a.state else Except.error ProgramError.invalidAccountData

def U64 : Nat := 2 ^ 64

/-- Wrapping `u64` addition (Rust release-mode `+`). -/
def add64 (a b : Nat) : Nat := (a + b) % U64

/-- Wrapping `u64` subtraction (Rust release-mode `-`). -/
def sub64 (a b : Nat) : Nat := (a + U64 - b) % U64

-- Vote types (process_vote.rs)
def VOTE_NOT_VOTED : Nat := 0
def VOTE_FOR : Nat := 1
def VOTE_AGAINST : Nat := 2
def VOTE_ABSTAIN : Nat := 3

/-- The first index `i < m.member_count` with `m.memeber_keys[i] = k`
(the voter/member scan loop shared by `process_vote.rs`,
`remove_member.rs`). -/
def findMemberIdx (m : Multisig) (k : Pubkey) : Option Nat :=
  (List.range m.member_count).find? (fun i => m.memeber_keys.getD i pubkeyDefault == k)

/-- Running tally accumulator of the vote-counting loop in
`process_vote.rs` (`votes_for`, `votes_against`, `votes_abstain`,
`total_votes`). -/
structure Tally where
  votesFor : Nat
  votesAgainst : Nat
  votesAbstain : Nat
  totalVotes : Nat
deriving DecidableEq, Repr

/-- One iteration of the vote-counting loop: the `match` on
`proposal_account.votes[i]` (`VOTE_FOR`/`VOTE_AGAINST`/`VOTE_ABSTAIN`
bump their counter and the total; `VOTE_NOT_VOTED` and unknown bytes
leave the tally unchanged). -/
def tallyStep (votes : List Nat) (t : Tally) (i : Nat) : Tally :=
  let v := votes.getD i 0
  if v = VOTE_FOR then
    { t with votesFor := t.votesFor + 1, totalVotes := t.totalVotes + 1 }
  else if v = VOTE_AGAINST then
    { t with votesAgainst := t.votesAgainst + 1, totalVotes := t.totalVotes + 1 }
  else if v = VOTE_ABSTAIN then
    { t with votesAbstain := t.votesAbstain + 1, totalVotes := t.totalVotes + 1 }
  else t

/-- The vote-counting loop of `process_vote.rs`: scan slots
`0..member_count` of the proposal's votes array. -/
def tallyVotes (votes : List Nat) (member_count : Nat) : Tally :=
  (List.range member_count).foldl (tallyStep votes) ⟨0, 0, 0, 0⟩

/-- The resolution branch chain at the end of `process_vote.rs`, entered
with the proposal known `Active`: succeeded if `votes_for >= threshold`;
failed if `votes_against > member_count - threshold` (wrapping `u64`
subtraction); failed if everyone voted and the threshold is unmet;
otherwise the status is left as it was. -/
def resolveStatus (t : Tally) (member_count threshold : Nat) (current : ProposalStatus) :
    ProposalStatus :=
  if t.votesFor ≥ threshold then ProposalStatus.Succeeded
  else if t.votesAgainst > sub64 member_count threshold then ProposalStatus.Failed
  else if t.totalVotes = member_count ∧ t.votesFor < threshold then ProposalStatus.Failed
  else current

instance decEqExcept {ε α : Type} [DecidableEq ε] [DecidableEq α] :
    DecidableEq (Except ε α)
  | Except.ok a, Except.ok b =>
    if h : a = b then isTrue (by rw [h]) else isFalse (fun hh => h (Except.ok.inj hh))
  | Except.ok _, Except.error _ => isFalse (fun h => Except.noConfusion h)
  | Except.error _, Except.ok _ => isFalse (fun h => Except.noConfusion h)
  | Except.error a, Except.error b =>
    if h : a = b then isTrue (by rw [h]) else isFalse (fun hh => h (Except.error.inj hh))

/-- Result of one `process_vote` call: the proposal account after the
call, the auxiliary vote account after the call, and the returned
`ProgramResult`. -/
structure VoteOutcome where
  proposal : ProposalState
  vote_account : VoteAccount
  res : Except ProgramError Unit
deriving DecidableEq, Repr

/-- Tail of `process_vote`: count the votes over the live registry's
`member_count` slots and run the resolution branch chain. -/
def finishVote (m : Multisig) (p : ProposalState) (va : VoteAccount) : VoteOutcome :=
  let t := tallyVotes p.votes m.member_count
  ⟨{ p with result := resolveStatus t m.member_count m.threshold p.result }, va, Except.ok ()⟩

/-- `process_vote` from `src/src/instructions/process_vote.rs`.
Arguments mirror the Rust signature: the multisig and proposal account
contents, the voter's key, the auxiliary vote account, the vote type
byte; `current_time` stands for the clock sysvar read. Checks in source
order: vote type `> VOTE_ABSTAIN` rejected; proposal must be `Active`;
if `current_time > expiry` the status is set to `Failed` and the call
errors; the voter is looked up in the **live registry's**
`memeber_keys[0..member_count]`; the vote byte is written
unconditionally over the previous one; the auxiliary record, when its
account has data, is loaded (propagating a load failure) and updated;
finally the tally and resolution run. -/
def process_vote (m : Multisig) (p : ProposalState) (voter_key : Pubkey)
    (vote_account : VoteAccount) (vote_type : Nat) (current_time : Nat) : VoteOutcome :=
  if vote_type > VOTE_ABSTAIN then
    ⟨p, vote_account, Except.error ProgramError.invalidInstructionData⟩
  else if p.result ≠ ProposalStatus.Active then
    ⟨p, vote_account, Except.error ProgramError.invalidAccountData⟩
  else if current_time > p.expiry then
    ⟨{ p with result := ProposalStatus.Failed }, vote_account,
      Except.error ProgramError.invalidAccountData⟩
  else
    match findMemberIdx m voter_key with
    | none => ⟨p, vote_account, Except.error ProgramError.invalidAccountData⟩
    | some voter_idx =>
      let p1 := { p with votes := p.votes.set voter_idx vote_type }
      if vote_account.data_len > 0 then
        match VoteState.from_account_info vote_account with
        | Except.error e => ⟨p1, vote_account, Except.error e⟩
        | Except.ok vs =>
          let vs1 := { vs with has_permission := true, vote_count := add64 vs.vote_count 1 }
          finishVote m p1 { vote_account with state := vs1 }
      else
        finishVote m p1 vote_account

/-- `init_proposal` from `src/src/instructions/init_proposal.rs`:
membership scan of the proposer over the registry's first
`member_count` keys; on success returns the updated registry
(`total_proposals` incremented) and the fresh proposal (snapshot of the
first `member_count` keys, votes all `NOT_VOTED`, id taken from the old
counter, expiry `current_time + duration`, status `Active`, bump 0). -/
def init_proposal (m : Multisig) (proposer_key : Pubkey)
    (proposal_expiry_duration : Nat) (current_time : Nat) :
    Except ProgramError (Multisig × ProposalState) :=
  let is_member := (List.range m.member_count).any
    (fun i => m.memeber_keys.getD i pubkeyDefault == proposer_key)
  if ¬ is_member then Except.error ProgramError.invalidAccountData
  else
    let expiry_time := add64 current_time proposal_expiry_duration
    let proposal_id := m.total_proposals
    let m1 := { m with total_proposals := add64 m.total_proposals 1 }
    let active_members := (List.range 10).map
      (fun i => if i < m.member_count then m.memeber_keys.getD i pubkeyDefault else pubkeyDefault)
    Except.ok (m1,
      { proposal_id := proposal_id
        expiry := expiry_time
        result := ProposalStatus.Active
        bump := 0
        active_members := active_members
        votes := List.replicate 10 0
        created_time := current_time })

/-- `add_member` from `src/src/instructions/add_member.rs`: capacity
guard at 10, duplicate scan over the first `member_count` slots, append
at index `member_count`, increment the count. -/
def add_member (m : Multisig) (new_member : Pubkey) : Except ProgramError Multisig :=
  if m.member_count ≥ 10 then Except.error ProgramError.invalidAccountData
  else if (List.range m.member_count).any
      (fun i => m.memeber_keys.getD i pubkeyDefault == new_member) then
    Except.error ProgramError.invalidAccountData
  else
    Except.ok { m with
      memeber_keys := m.memeber_keys.set m.member_count new_member
      member_count := add64 m.member_count 1 }

/-- `remove_member` from `src/src/instructions/remove_member.rs`: guard
`member_count <= threshold`, first-match scan, left shift of the slots
after the removed index, clear the vacated tail slot, decrement the
count. -/
def remove_member (m : Multisig) (member_to_remove : Pubkey) : Except ProgramError Multisig :=
  if m.member_count ≤ m.threshold then Except.error ProgramError.invalidAccountData
  else
    match findMemberIdx m member_to_remove with
    | none => Except.error ProgramError.invalidAccountData
    | some member_index =>
      let shifted := (List.range' member_index (m.member_count - 1 - member_index)).foldl
        (fun ks i => ks.set i (ks.getD (i + 1) pubkeyDefault)) m.memeber_keys
      Except.ok { m with
        memeber_keys := shifted.set (m.member_count - 1) pubkeyDefault
        member_count := sub64 m.member_count 1 }

/-- Little-endian value of a byte list (`u64::from_le_bytes`). -/
def leVal (bs : List Nat) : Nat := bs.foldr (fun b acc => b + 256 * acc) 0

/-- Core of `initialize_multisig` from
`src/src/instructions/init_multisig.rs`: the data-length check, the
payload parse (`member_count` from bytes 1..8 LE, `threshold` from byte
9, `proposal_expiry` from the three-way length branch), the parameter
validation, and the field assignment (all ten member slots set to the
default key, counters zeroed). The PDA-derivation, owner and
account-creation steps (host collaborators per the spec's external
interfaces) are outside this core; `creator_key`, `treasury_pda` and
the bumps are the values those steps produce. -/
def init_multisig (creator_key treasury_pda : Pubkey) (multisig_bump treasury_bump : Nat)
    (data : List Nat) : Except ProgramError Multisig :=
  if data.length < 10 then Except.error ProgramError.invalidInstructionData
  else
    let member_count := leVal ((data.drop 1).take 8)
    let threshold := data.getD 9 0
    let proposal_expiry :=
      if data.length ≥ 18 then leVal ((data.drop 10).take 8)
      else if data.length > 10 then data.getD 10 0
      else 86400
    if member_count = 0 ∨ member_count > 10 then Except.error ProgramError.invalidInstructionData
    else if threshold = 0 ∨ threshold > member_count then
      Except.error ProgramError.invalidInstructionData
    else
      Except.ok
        { creator := creator_key
          member_count := member_count
          memeber_keys := List.replicate 10 pubkeyDefault
          threshold := threshold
          proposal_expiry := proposal_expiry
          total_proposals := 0
          treasury_wallet := treasury_pda
          config_bump := multisig_bump
          treasury_bump := treasury_bump }

/-- Where the dispatcher routes a call, before the handler runs. -/
inductive Routed where
  | initMultisig (data : List Nat)
  | addMember (member : Pubkey)
  | removeMember (member : Pubkey)
  | initProposal (duration : Nat)
  | vote (vote_type : Nat)
deriving DecidableEq, Repr

/-- Outcome of the dispatcher's decode phase: routed to a handler,
returned an error, or aborted with a Rust panic (out-of-bounds slice or
account index) — a panicking call never returns a `ProgramResult`. -/
inductive DispatchResult where
  | routed (r : Routed)
  | err (e : ProgramError)
  | panic
deriving DecidableEq, Repr

/-- `read_pubkey` from `src/src/lib.rs`. -/
def read_pubkey (data : List Nat) : Except ProgramError Pubkey :=
  if data.length < 32 then Except.error ProgramError.invalidInstructionData
  else Except.ok (data.take 32)

/-- `read_u64` from `src/src/lib.rs`. -/
def read_u64 (data : List Nat) : Except ProgramError Nat :=
  if data.length < 8 then Except.error ProgramError.invalidInstructionData
  else Except.ok (leVal (data.take 8))

/-- Decode phase of `process_instruction` in `src/src/lib.rs`, evaluated
exactly as far as the source gets before entering a handler:
`split_first` on the instruction bytes (empty data errors), then the
selector match. Selectors 1/2 run `read_pubkey` on the remaining bytes,
then index `accounts[0]`; selector 3 takes the slice `data[96..]`
(panicking when the payload is shorter than 96 bytes), runs `read_u64`
on it, then indexes `accounts[0..=2]`; selector 4 indexes `data[128]`
(panicking when the payload has at most 128 bytes), then
`accounts[0..=3]`; slice/array indexing past the end is a panic, not an
error return. `num_accounts` is the length of the account list. -/
def process_instruction_decode (instruction_data : List Nat) (num_accounts : Nat) :
    DispatchResult :=
  match instruction_data with
  | [] => DispatchResult.err ProgramError.invalidInstructionData
  | discriminator :: data =>
    if discriminator = 0 then DispatchResult.routed (Routed.initMultisig data)
    else if discriminator = 1 then
      match read_pubkey data with
      | Except.error e => DispatchResult.err e
      | Except.ok k =>
        if num_accounts < 1 then DispatchResult.panic
        else DispatchResult.routed (Routed.addMember k)
    else if discriminator = 2 then
      match read_pubkey data with
      | Except.error e => DispatchResult.err e
      | Except.ok k =>
        if num_accounts < 1 then DispatchResult.panic
        else DispatchResult.routed (Routed.removeMember k)
    else if discriminator = 3 then
      if data.length < 96 then DispatchResult.panic
      else
        match read_u64 (data.drop 96) with
        | Except.error e => DispatchResult.err e
        | Except.ok duration =>
          if num_accounts < 3 then DispatchResult.panic
          else DispatchResult.routed (Routed.initProposal duration)
    else if discriminator = 4 then
      if data.length ≤ 128 then DispatchResult.panic
      else if num_accounts < 4 then DispatchResult.panic
      else DispatchResult.routed (Routed.vote (data.getD 128 0))
    else DispatchResult.err ProgramError.invalidInstructionData

/-- Count of slots `i < member_count` of the votes array holding vote
kind `k` — the per-kind tally stated as a count over distinct indices
(each snapshot slot, hence each voter, contributes at most once). -/
def cntVote (votes : List Nat) (member_count k : Nat) : Nat :=
  (List.range member_count).countP (fun i => votes.getD i 0 == k)

/-! ## Concrete fixtures (used by counterexamples and witnesses) -/

def pkA : Pubkey := List.replicate 32 10
def pkB : Pubkey := List.replicate 32 20
def pkC : Pubkey := List.replicate 32 30
def pkD : Pubkey := List.replicate 32 40

/-- Registry with members A, B, threshold 1. -/
def regAB : Multisig :=
  { creator := List.replicate 32 1
    member_count := 2
    memeber_keys := [pkA, pkB] ++ List.replicate 8 pubkeyDefault
    threshold := 1
    proposal_expiry := 86400
    total_proposals := 0
    treasury_wallet := List.replicate 32 99
    config_bump := 255
    treasury_bump := 254 }

/-- Registry with members A, B, C, threshold 2 (the spec's worked
example). -/
def regABC : Multisig :=
  { regAB with
    member_count := 3
    memeber_keys := [pkA, pkB, pkC] ++ List.replicate 7 pubkeyDefault
    threshold := 2 }

/-- `regAB` after removing A (what `remove_member regAB pkA` returns). -/
def regB : Multisig :=
  { regAB with
    member_count := 1
    memeber_keys := [pkB] ++ List.replicate 9 pubkeyDefault }

/-- `regAB` after adding C (what `add_member regAB pkC` returns). -/
def regABwithC : Multisig :=
  { regAB with
    member_count := 3
    memeber_keys := [pkA, pkB, pkC] ++ List.replicate 7 pubkeyDefault
    threshold := 1 }

/-- `regABC` after adding D (what `add_member regABC pkD` returns). -/
def regABCD : Multisig :=
  { regABC with
    member_count := 4
    memeber_keys := [pkA, pkB, pkC, pkD] ++ List.replicate 6 pubkeyDefault }

/-- The proposal `init_proposal regAB pkA 100 0` creates: snapshot
[A, B], expiry 100. -/
def propAB : ProposalState :=
  { proposal_id := 0
    expiry := 100
    result := ProposalStatus.Active
    bump := 0
    active_members := [pkA, pkB] ++ List.replicate 8 pubkeyDefault
    votes := List.replicate 10 0
    created_time := 0 }

/-- The proposal `init_proposal regABC pkA 100 0` creates: snapshot
[A, B, C], expiry 100. -/
def propABC : ProposalState :=
  { propAB with active_members := [pkA, pkB, pkC] ++ List.replicate 7 pubkeyDefault }

/-- Auxiliary vote account not supplied (zero-length data). -/
def vaAbsent : VoteAccount := ⟨0, false, ⟨false, 0, 0, List.replicate 10 0⟩⟩

/-- Auxiliary vote account with data that fails to load as a
`VoteState` record. -/
def vaMalformed : VoteAccount := ⟨5, false, ⟨false, 0, 0, List.replicate 10 0⟩⟩

/-- Auxiliary vote account that loads fine. -/
def vaOk : VoteAccount := ⟨17, true, ⟨false, 3, 7, List.replicate 10 0⟩⟩

/-! ## Helper lemmas -/

lemma add64_eq {a b : Nat} (h : a + b < U64) : add64 a b = a + b :=
  Nat.mod_eq_of_lt h

lemma sub64_eq {a b : Nat} (hb : b ≤ a) (ha : a < U64) : sub64 a b = a - b := by
  unfold sub64
  have h1 : a + U64 - b = (a - b) + U64 := by omega
  rw [h1, Nat.add_mod_right]
  exact Nat.mod_eq_of_lt (by omega)

lemma tallyVotes_succ (votes : List Nat) (n : Nat) :
    tallyVotes votes (n + 1) = tallyStep votes (tallyVotes votes n) n := by
  unfold tallyVotes
  rw [List.range_succ, List.foldl_append]
  rfl

lemma cntVote_succ (votes : List Nat) (n k : Nat) :
    cntVote votes (n + 1) k = cntVote votes n k + (if votes.getD n 0 = k then 1 else 0) := by
  unfold cntVote
  rw [List.range_succ, List.countP_append]
  simp [List.countP_cons]

/-- The one-pass counting loop computes exactly the per-kind counts over
the scanned index range, with the total the sum of the three legal
kinds. -/
lemma tallyVotes_eq_cnt (votes : List Nat) (n : Nat) :
    tallyVotes votes n =
      ⟨cntVote votes n 1, cntVote votes n 2, cntVote votes n 3,
        cntVote votes n 1 + cntVote votes n 2 + cntVote votes n 3⟩ := by
  induction n with
  | zero => rfl
  | succ n ih =>
    rw [tallyVotes_succ, ih, cntVote_succ, cntVote_succ, cntVote_succ]
    simp only [tallyStep, VOTE_FOR, VOTE_AGAINST, VOTE_ABSTAIN]
    split_ifs with h1 h2 h3 <;> simp_all [Tally.mk.injEq] <;> omega

/-- After all validation passes (legal vote type, active, unexpired,
voter found, no auxiliary account data), `process_vote` is the vote
write followed by the tally-and-resolve tail. -/
lemma process_vote_valid (m : Multisig) (p : ProposalState) (k : Pubkey) (va : VoteAccount)
    (vt now i : Nat) (hvt : vt ≤ 3) (hact : p.result = ProposalStatus.Active)
    (hexp : now ≤ p.expiry) (hidx : findMemberIdx m k = some i) (hva : va.data_len = 0) :
    process_vote m p k va vt now = finishVote m { p with votes := p.votes.set i vt } va := by
  unfold process_vote
  rw [if_neg (by simp only [VOTE_ABSTAIN]; omega), if_neg (by simp [hact]),
    if_neg (by omega), hidx]
  simp [hva]

lemma getD_set_self {l : List Nat} {i v : Nat} (h : i < l.length) :
    (l.set i v).getD i 0 = v := by
  rw [List.getD_eq_getElem _ _ (by simpa using h)]
  simp

lemma getD_set_ne {l : List Nat} {i j v : Nat} (h : i ≠ j) :
    (l.set i v).getD j 0 = l.getD j 0 := by
  simp [List.getD, List.getElem?_set_ne h]

lemma cntVote_set_ge (votes : List Nat) {mc i : Nat} (v k : Nat) (h : mc ≤ i) :
    cntVote (votes.set i v) mc k = cntVote votes mc k := by
  induction mc with
  | zero => rfl
  | succ n ih =>
    rw [cntVote_succ, cntVote_succ, ih (by omega), getD_set_ne (by omega)]

/-- Overwriting slot `i < mc` replaces that slot's contribution to the
per-kind count: the new count plus the old slot's contribution equals
the old count plus the new value's contribution. -/
lemma cntVote_set (votes : List Nat) {mc i : Nat} (v k : Nat)
    (hi : i < votes.length) (him : i < mc) :
    cntVote (votes.set i v) mc k + (if votes.getD i 0 = k then 1 else 0) =
      cntVote votes mc k + (if v = k then 1 else 0) := by
  induction mc with
  | zero => omega
  | succ n ih =>
    rw [cntVote_succ, cntVote_succ]
    by_cases hn : n = i
    · subst hn
      rw [cntVote_set_ge votes v k (le_refl n), getD_set_self hi]
      split_ifs <;> omega
    · rw [getD_set_ne (fun hh => hn hh.symm)]
      by_cases hin : i < n
      · have := ih hin
        split_ifs at * <;> omega
      · omega

/-- `process_vote` never reads the proposal's `active_members` snapshot:
replacing it by anything changes neither the returned `ProgramResult`,
nor the stored votes, nor the resulting status. -/
lemma process_vote_snapshot_irrel (m : Multisig) (p : ProposalState) (k : Pubkey)
    (va : VoteAccount) (vt now : Nat) (snapshot : List Pubkey) :
    (process_vote m { p with active_members := snapshot } k va vt now).res =
      (process_vote m p k va vt now).res ∧
    (process_vote m { p with active_members := snapshot } k va vt now).proposal.votes =
      (process_vote m p k va vt now).proposal.votes ∧
    (process_vote m { p with active_members := snapshot } k va vt now).proposal.result =
      (process_vote m p k va vt now).proposal.result := by
  unfold process_vote
  dsimp only
  split_ifs <;>
    cases hf : findMemberIdx m k <;>
    cases hv : VoteState.from_account_info va <;>
    simp [hf, hv, finishVote]

/-! ## Claim theorems -/

/-- C6: for an Active proposal, a vote cast at a time strictly after
`expiry` sets the stored status to `Failed` in the returned proposal
account and the call itself fails (the spec's `ProposalExpired`,
surfaced by the code as `InvalidAccountData`); the votes array — and
every other proposal field — is untouched, so no vote is recorded. -/
theorem expired_vote_flips_failed (m : Multisig) (p : ProposalState) (k : Pubkey)
    (va : VoteAccount) (vt now : Nat) (hvt : vt ≤ 3)
    (hact : p.result = ProposalStatus.Active) (hexp : p.expiry < now) :
    process_vote m p k va vt now =
      ⟨{ p with result := ProposalStatus.Failed }, va,
        Except.error ProgramError.invalidAccountData⟩ := by
  unfold process_vote
  rw [if_neg (by simp only [VOTE_ABSTAIN]; omega), if_neg (by simp [hact]),
    if_pos (by omega)]

theorem expired_vote_flips_failed_witness :
    process_vote regAB propAB pkA vaAbsent 1 101 =
      ⟨{ propAB with result := ProposalStatus.Failed }, vaAbsent,
        Except.error ProgramError.invalidAccountData⟩ :=
  expired_vote_flips_failed regAB propAB pkA vaAbsent 1 101 (by decide) (by decide)
    (by decide)

/-- C7: on a registry satisfying `threshold ≤ member_count` (with the
count a `u64` value), the invariant still holds after every successful
`add_member` and every successful `remove_member`, and `remove_member`
is rejected outright (the spec's `ThresholdUnreachable`, surfaced as
`InvalidAccountData`) whenever `member_count = threshold`. -/
theorem registry_threshold_invariant (m : Multisig)
    (hinv : m.threshold ≤ m.member_count) (hmc : m.member_count < U64) :
    (∀ k m', add_member m k = Except.ok m' → m'.threshold ≤ m'.member_count) ∧
    (∀ k m', remove_member m k = Except.ok m' → m'.threshold ≤ m'.member_count) ∧
    (m.member_count = m.threshold →
      ∀ k, remove_member m k = Except.error ProgramError.invalidAccountData) := by
  refine ⟨?_, ?_, ?_⟩
  · intro k m' h
    unfold add_member at h
    split_ifs at h with h1 h2
    injection h with h
    subst h
    have h10 : ¬ m.member_count ≥ 10 := h1
    have : add64 m.member_count 1 = m.member_count + 1 :=
      add64_eq (by unfold U64; omega)
    simp only [this]
    omega
  · intro k m' h
    unfold remove_member at h
    split_ifs at h with h1
    cases hf : findMemberIdx m k with
    | none => rw [hf] at h; exact absurd h (by simp)
    | some idx =>
      rw [hf] at h
      injection h with h
      subst h
      have : sub64 m.member_count 1 = m.member_count - 1 :=
        sub64_eq (by omega) hmc
      simp only [this]
      omega
  · intro heq k
    unfold remove_member
    rw [if_pos (by omega)]

theorem registry_threshold_invariant_witness :
    regAB.threshold ≤ regAB.member_count ∧ regAB.member_count < U64 ∧
    ((∀ k m', add_member regAB k = Except.ok m' → m'.threshold ≤ m'.member_count) ∧
      (∀ k m', remove_member regAB k = Except.ok m' → m'.threshold ≤ m'.member_count) ∧
      (regAB.member_count = regAB.threshold →
        ∀ k, remove_member regAB k = Except.error ProgramError.invalidAccountData)) :=
  ⟨by decide, by decide, registry_threshold_invariant regAB (by decide) (by decide)⟩

/-- C1 counterexample: the voter lookup reads the live registry, not
the snapshot. Concretely: `init_proposal` on registry {A, B} produces a
proposal whose snapshot is [A, B]; after `remove_member` removes A, A's
vote on that proposal is rejected although A is in the snapshot; after
`add_member` adds C, C's vote on that proposal succeeds although C is
not in the snapshot — both directions of the claim fail. -/
theorem vote_lookup_snapshot_counterexample :
    init_proposal regAB pkA 100 0 =
      Except.ok ({ regAB with total_proposals := 1 }, propAB) ∧
    remove_member regAB pkA = Except.ok regB ∧
    propAB.active_members.contains pkA = true ∧
    (process_vote regB propAB pkA vaAbsent 1 5).res =
      Except.error ProgramError.invalidAccountData ∧
    add_member regAB pkC = Except.ok regABwithC ∧
    propAB.active_members.contains pkC = false ∧
    (process_vote regABwithC propAB pkC vaAbsent 1 5).res = Except.ok () := by
  decide

/-- C1 amended: `castVote`'s voter lookup is evaluated against the live
registry's first `member_count` keys, not the proposal's frozen
`active_members` snapshot: a voter absent from the live registry fails
(the spec's `VoterNotInSnapshot` site, surfaced as
`InvalidAccountData`) with the proposal untouched even if present in
the snapshot, a voter found in the live registry proceeds (succeeding
outright when no auxiliary record is supplied) even if absent from the
snapshot, and replacing the snapshot by anything changes neither the
returned result, the stored votes, nor the resulting status. -/
theorem vote_lookup_live_registry (m : Multisig) (p : ProposalState) (k : Pubkey)
    (va : VoteAccount) (vt now : Nat) (snapshot : List Pubkey)
    (hvt : vt ≤ 3) (hact : p.result = ProposalStatus.Active) (hexp : now ≤ p.expiry) :
    (findMemberIdx m k = none →
      process_vote m p k va vt now =
        ⟨p, va, Except.error ProgramError.invalidAccountData⟩) ∧
    (∀ i, findMemberIdx m k = some i → va.data_len = 0 →
      (process_vote m p k va vt now).res = Except.ok ()) ∧
    ((process_vote m { p with active_members := snapshot } k va vt now).res =
        (process_vote m p k va vt now).res ∧
      (process_vote m { p with active_members := snapshot } k va vt now).proposal.votes =
        (process_vote m p k va vt now).proposal.votes ∧
      (process_vote m { p with active_members := snapshot } k va vt now).proposal.result =
        (process_vote m p k va vt now).proposal.result) := by
  refine ⟨?_, ?_, process_vote_snapshot_irrel m p k va vt now snapshot⟩
  · intro hnone
    unfold process_vote
    rw [if_neg (by simp only [VOTE_ABSTAIN]; omega), if_neg (by simp [hact]),
      if_neg (by omega), hnone]
  · intro i hidx hva
    rw [process_vote_valid m p k va vt now i hvt hact hexp hidx hva]
    rfl

theorem vote_lookup_live_registry_witness :
    (process_vote regABwithC propAB pkC vaAbsent 1 5).res = Except.ok () :=
  (vote_lookup_live_registry regABwithC propAB pkC vaAbsent 1 5 [] (by decide)
    (by decide) (by decide)).2.1 2 (by decide) (by decide)

/-- C3 counterexample: the validation `vote_type > VOTE_ABSTAIN` does
not reject `VOTE_NOT_VOTED = 0`. Concretely, on an active unexpired
proposal where A previously voted For, casting vote kind 0 succeeds and
overwrites A's slot with 0 (erasing the prior vote) — instead of
failing with `InvalidVoteKind` without mutating the votes array. -/
theorem vote_kind_zero_accepted_counterexample :
    (process_vote regABC { propABC with votes := [1, 0, 0, 0, 0, 0, 0, 0, 0, 0] }
        pkA vaAbsent 0 5).res = Except.ok () ∧
    (process_vote regABC { propABC with votes := [1, 0, 0, 0, 0, 0, 0, 0, 0, 0] }
        pkA vaAbsent 0 5).proposal.votes = [0, 0, 0, 0, 0, 0, 0, 0, 0, 0] ∧
    VOTE_NOT_VOTED = 0 := by
  decide

/-- C3 amended: `castVote` fails with `InvalidVoteKind` (surfaced as
`InvalidInstructionData`) exactly for vote kinds strictly greater than
`VOTE_ABSTAIN = 3`, leaving all state untouched; `VOTE_NOT_VOTED = 0`
is a legal input, accepted like the other kinds, and overwrites the
voter's slot with 0 (retracting any previous vote). -/
theorem vote_kind_validation_upper_only (m : Multisig) (p : ProposalState) (k : Pubkey)
    (va : VoteAccount) (now i : Nat) (hact : p.result = ProposalStatus.Active)
    (hexp : now ≤ p.expiry) (hidx : findMemberIdx m k = some i) (hva : va.data_len = 0) :
    (∀ vt, 3 < vt →
      process_vote m p k va vt now =
        ⟨p, va, Except.error ProgramError.invalidInstructionData⟩) ∧
    ((process_vote m p k va 0 now).res = Except.ok () ∧
      (process_vote m p k va 0 now).proposal.votes = p.votes.set i 0) := by
  constructor
  · intro vt hvt
    unfold process_vote
    rw [if_pos (by simp only [VOTE_ABSTAIN]; omega)]
  · rw [process_vote_valid m p k va 0 now i (by omega) hact hexp hidx hva]
    exact ⟨rfl, rfl⟩

theorem vote_kind_validation_upper_only_witness :
    (process_vote regABC propABC pkA vaAbsent 4 5 =
      ⟨propABC, vaAbsent, Except.error ProgramError.invalidInstructionData⟩) ∧
    (process_vote regABC propABC pkA vaAbsent 0 5).res = Except.ok () :=
  ⟨(vote_kind_validation_upper_only regABC propABC pkA vaAbsent 5 0 (by decide)
      (by decide) (by decide) (by decide)).1 4 (by decide),
    (vote_kind_validation_upper_only regABC propABC pkA vaAbsent 5 0 (by decide)
      (by decide) (by decide) (by decide)).2.1⟩

/-- C4 counterexample: the resolution bounds use the live registry's
`member_count`, not the snapshot member count. Concretely: a proposal
is created from registry {A, B, C} (threshold 2, snapshot of 3
members); D is then added (live count 4). After A and B both vote
Against, the recorded against-count is 2, which exceeds
`snapshot member count − threshold = 3 − 2 = 1`, so the claim mandates
`Failed` — but the code compares against `4 − 2 = 2` and leaves the
proposal `Active`. -/
theorem resolution_snapshot_count_counterexample :
    init_proposal regABC pkA 100 0 =
      Except.ok ({ regABC with total_proposals := 1 }, propABC) ∧
    propABC.active_members = [pkA, pkB, pkC] ++ List.replicate 7 pubkeyDefault ∧
    add_member regABC pkD = Except.ok regABCD ∧
    (process_vote regABCD propABC pkA vaAbsent 2 5).res = Except.ok () ∧
    (process_vote regABCD (process_vote regABCD propABC pkA vaAbsent 2 5).proposal
        pkB vaAbsent 2 5).res = Except.ok () ∧
    cntVote (process_vote regABCD (process_vote regABCD propABC pkA vaAbsent 2 5).proposal
        pkB vaAbsent 2 5).proposal.votes 3 2 = 2 ∧
    3 - 2 < 2 ∧
    (process_vote regABCD (process_vote regABCD propABC pkA vaAbsent 2 5).proposal
        pkB vaAbsent 2 5).proposal.result = ProposalStatus.Active := by
  decide

/-- C4 amended: after every successful vote, resolution is evaluated in
the fixed priority order of the code, with every bound taken from the
live registry (its current `member_count` and `threshold`), not from
the snapshot: Succeeded if `forCount ≥ threshold`, else Failed if
`againstCount > member_count − threshold`, else Failed if all counted
slots voted with `forCount < threshold`, else still Active — counts
being per-kind counts over the first `member_count` vote slots after
the write. The spec's worked examples (threshold 2, member_count 3,
where live and snapshot counts agree) hold as stated: [For, For, ·] →
Succeeded, [Against, Against, ·] → Failed, [For, Against, Abstain] →
Failed, [For, ·, ·] → Active. -/
theorem resolution_priority_live_count :
    (∀ (m : Multisig) (p : ProposalState) (k : Pubkey) (va : VoteAccount) (vt now i : Nat),
      vt ≤ 3 → p.result = ProposalStatus.Active → now ≤ p.expiry →
      findMemberIdx m k = some i → va.data_len = 0 →
      (process_vote m p k va vt now).res = Except.ok () ∧
      (process_vote m p k va vt now).proposal.result =
        (if cntVote (p.votes.set i vt) m.member_count 1 ≥ m.threshold then
          ProposalStatus.Succeeded
        else if cntVote (p.votes.set i vt) m.member_count 2 >
            sub64 m.member_count m.threshold then
          ProposalStatus.Failed
        else if cntVote (p.votes.set i vt) m.member_count 1 +
              cntVote (p.votes.set i vt) m.member_count 2 +
              cntVote (p.votes.set i vt) m.member_count 3 = m.member_count ∧
            cntVote (p.votes.set i vt) m.member_count 1 < m.threshold then
          ProposalStatus.Failed
        else ProposalStatus.Active)) ∧
    (process_vote regABC { propABC with votes := [1, 0, 0, 0, 0, 0, 0, 0, 0, 0] }
        pkB vaAbsent 1 5).proposal.result = ProposalStatus.Succeeded ∧
    (process_vote regABC { propABC with votes := [2, 0, 0, 0, 0, 0, 0, 0, 0, 0] }
        pkB vaAbsent 2 5).proposal.result = ProposalStatus.Failed ∧
    (process_vote regABC { propABC with votes := [1, 2, 0, 0, 0, 0, 0, 0, 0, 0] }
        pkC vaAbsent 3 5).proposal.result = ProposalStatus.Failed ∧
    (process_vote regABC propABC pkA vaAbsent 1 5).proposal.result =
      ProposalStatus.Active := by
  refine ⟨?_, by decide, by decide, by decide, by decide⟩
  intro m p k va vt now i hvt hact hexp hidx hva
  rw [process_vote_valid m p k va vt now i hvt hact hexp hidx hva]
  refine ⟨rfl, ?_⟩
  simp only [finishVote]
  rw [tallyVotes_eq_cnt, hact]
  rfl

theorem resolution_priority_live_count_witness :
    (process_vote regABC propABC pkA vaAbsent 1 5).res = Except.ok () :=
  (resolution_priority_live_count.1 regABC propABC pkA vaAbsent 1 5 0 (by decide)
    (by decide) (by decide) (by decide) (by decide)).1

/-- C5 counterexample: a failing auxiliary-record load does block
tallying. Concretely, on registry {A, B} (threshold 1) A votes For with
a non-empty but malformed vote account: the call errors out after the
vote byte is written but before the tally runs, leaving the status
Active — whereas the identical call with no auxiliary account resolves
the proposal Succeeded. -/
theorem vote_record_failure_blocks_counterexample :
    vaMalformed.data_len > 0 ∧
    (process_vote regAB propAB pkA vaMalformed 1 5).res =
      Except.error ProgramError.invalidAccountData ∧
    (process_vote regAB propAB pkA vaMalformed 1 5).proposal.votes.getD 0 0 = 1 ∧
    (process_vote regAB propAB pkA vaMalformed 1 5).proposal.result =
      ProposalStatus.Active ∧
    (process_vote regAB propAB pkA vaAbsent 1 5).proposal.result =
      ProposalStatus.Succeeded := by
  decide

/-- C5 amended: the auxiliary per-voter record's absence (zero-length
account data) or successful load never blocks tallying and never
affects the resolution outcome — a run with no auxiliary data and a
run with a loadable record produce the same proposal state and the same
result. But a record that is supplied (non-empty data) and fails to
load aborts the call: the vote byte is already written, the error
propagates, and tallying/resolution never run. -/
theorem vote_record_best_effort (m : Multisig) (p : ProposalState) (k : Pubkey)
    (vt now : Nat) :
    (∀ va va' : VoteAccount, va.data_len = 0 → va'.wellformed = true →
      (process_vote m p k va vt now).proposal = (process_vote m p k va' vt now).proposal ∧
      (process_vote m p k va vt now).res = (process_vote m p k va' vt now).res) ∧
    (∀ (va : VoteAccount) i, va.data_len > 0 → va.wellformed = false →
      vt ≤ 3 → p.result = ProposalStatus.Active → now ≤ p.expiry →
      findMemberIdx m k = some i →
      process_vote m p k va vt now =
        ⟨{ p with votes := p.votes.set i vt }, va,
          Except.error ProgramError.invalidAccountData⟩) := by
  constructor
  · intro va va' hva hwf
    unfold process_vote
    dsimp only
    split_ifs <;>
      cases hf : findMemberIdx m k <;>
      simp_all [finishVote, VoteState.from_account_info]
  · intro va i hlen hwf hvt hact hexp hidx
    unfold process_vote
    rw [if_neg (by simp only [VOTE_ABSTAIN]; omega), if_neg (by simp [hact]),
      if_neg (by omega), hidx]
    simp [hlen, VoteState.from_account_info, hwf]

theorem vote_record_best_effort_witness :
    ((process_vote regAB propAB pkA vaAbsent 1 5).proposal =
        (process_vote regAB propAB pkA vaOk 1 5).proposal ∧
      (process_vote regAB propAB pkA vaAbsent 1 5).res =
        (process_vote regAB propAB pkA vaOk 1 5).res) ∧
    process_vote regAB propAB pkA vaMalformed 1 5 =
      ⟨{ propAB with votes := propAB.votes.set 0 1 }, vaMalformed,
        Except.error ProgramError.invalidAccountData⟩ :=
  ⟨(vote_record_best_effort regAB propAB pkA 1 5).1 vaAbsent vaOk (by decide) (by decide),
    (vote_record_best_effort regAB propAB pkA 1 5).2 vaMalformed 0 (by decide) (by decide)
      (by decide) (by decide) (by decide) (by decide)⟩

/-- C9: for an eligible voter who already voted on an Active, unexpired
proposal, a second vote overwrites the previous choice in place
(last-vote-wins): the call succeeds, the votes array is exactly the old
one with slot `i` overwritten by the new kind, other slots are
untouched, and the recomputed tallies are per-kind counts over the
distinct slot indices — each voter contributes exactly once, to the
kind now in their slot: the count of the new kind (counting the
voter's old slot contribution on the left) rises by exactly one, every
other kind's count is unchanged apart from losing the old slot's
contribution, and the tally the resolution uses is precisely these
counts. -/
theorem revote_overwrites_last_wins (m : Multisig) (p : ProposalState) (k : Pubkey)
    (va : VoteAccount) (vt now i : Nat)
    (_hvt1 : 1 ≤ vt) (hvt3 : vt ≤ 3) (hact : p.result = ProposalStatus.Active)
    (hexp : now ≤ p.expiry) (hidx : findMemberIdx m k = some i)
    (_hprev : p.votes.getD i 0 ≠ VOTE_NOT_VOTED) (hva : va.data_len = 0)
    (hlen : i < p.votes.length) :
    (process_vote m p k va vt now).res = Except.ok () ∧
    (process_vote m p k va vt now).proposal.votes = p.votes.set i vt ∧
    (process_vote m p k va vt now).proposal.votes.getD i 0 = vt ∧
    (∀ j, j ≠ i →
      (process_vote m p k va vt now).proposal.votes.getD j 0 = p.votes.getD j 0) ∧
    cntVote (p.votes.set i vt) m.member_count vt +
        (if p.votes.getD i 0 = vt then 1 else 0) =
      cntVote p.votes m.member_count vt + 1 ∧
    (∀ w, w ≠ vt →
      cntVote (p.votes.set i vt) m.member_count w +
          (if p.votes.getD i 0 = w then 1 else 0) =
        cntVote p.votes m.member_count w) ∧
    tallyVotes (p.votes.set i vt) m.member_count =
      ⟨cntVote (p.votes.set i vt) m.member_count 1,
        cntVote (p.votes.set i vt) m.member_count 2,
        cntVote (p.votes.set i vt) m.member_count 3,
        cntVote (p.votes.set i vt) m.member_count 1 +
          cntVote (p.votes.set i vt) m.member_count 2 +
          cntVote (p.votes.set i vt) m.member_count 3⟩ := by
  have him : i < m.member_count := List.mem_range.mp (List.mem_of_find?_eq_some hidx)
  rw [process_vote_valid m p k va vt now i hvt3 hact hexp hidx hva]
  refine ⟨rfl, rfl, getD_set_self hlen, ?_, ?_, ?_, tallyVotes_eq_cnt _ _⟩
  · intro j hj
    exact getD_set_ne (Ne.symm hj)
  · have h5 := cntVote_set p.votes vt vt hlen him
    rw [if_pos rfl] at h5
    exact h5
  · intro w hw
    have h6 := cntVote_set p.votes vt w hlen him
    rw [if_neg (Ne.symm hw)] at h6
    simpa using h6

theorem revote_overwrites_last_wins_witness :
    (process_vote regABC { propABC with votes := [1, 0, 0, 0, 0, 0, 0, 0, 0, 0] }
        pkA vaAbsent 2 5).res = Except.ok () ∧
    (process_vote regABC { propABC with votes := [1, 0, 0, 0, 0, 0, 0, 0, 0, 0] }
        pkA vaAbsent 2 5).proposal.votes =
      [1, 0, 0, 0, 0, 0, 0, 0, 0, 0].set 0 2 :=
  ⟨(revote_overwrites_last_wins regABC
      { propABC with votes := [1, 0, 0, 0, 0, 0, 0, 0, 0, 0] } pkA vaAbsent 2 5 0
      (by decide) (by decide) (by decide) (by decide) (by decide) (by decide)
      (by decide) (by decide)).1,
    (revote_overwrites_last_wins regABC
      { propABC with votes := [1, 0, 0, 0, 0, 0, 0, 0, 0, 0] } pkA vaAbsent 2 5 0
      (by decide) (by decide) (by decide) (by decide) (by decide) (by decide)
      (by decide) (by decide)).2.1⟩

/-- C8: `init_proposal` fails with `NotAMember` (surfaced as
`InvalidAccountData`) when the proposer is not among the registry's
first `member_count` entries; on success (stated under no-overflow side
conditions on the two `u64` additions) it returns the registry with
`total_proposals` incremented and a proposal with `proposal_id` equal
to the old `total_proposals`, `created_time = now`,
`expiry = now + duration`, status Active, all votes `NOT_VOTED`, and an
`active_members` snapshot holding exactly the first `member_count`
registry entries with every remaining slot left as the empty key. -/
theorem init_proposal_spec (m : Multisig) (proposer : Pubkey) (dur now : Nat)
    (hmc : m.member_count ≤ 10) :
    ((∀ i, i < m.member_count → m.memeber_keys.getD i pubkeyDefault ≠ proposer) →
      init_proposal m proposer dur now = Except.error ProgramError.invalidAccountData) ∧
    ((∃ i, i < m.member_count ∧ m.memeber_keys.getD i pubkeyDefault = proposer) →
      m.total_proposals + 1 < U64 → now + dur < U64 →
      ∃ p, init_proposal m proposer dur now =
          Except.ok ({ m with total_proposals := m.total_proposals + 1 }, p) ∧
        p.proposal_id = m.total_proposals ∧
        p.created_time = now ∧
        p.expiry = now + dur ∧
        p.result = ProposalStatus.Active ∧
        p.votes = List.replicate 10 0 ∧
        p.active_members.length = 10 ∧
        (∀ i, i < m.member_count →
          p.active_members.getD i pubkeyDefault = m.memeber_keys.getD i pubkeyDefault) ∧
        (∀ i, m.member_count ≤ i →
          p.active_members.getD i pubkeyDefault = pubkeyDefault)) := by
  have hmem : ((List.range m.member_count).any
      fun i => m.memeber_keys.getD i pubkeyDefault == proposer) = true ↔
      ∃ i, i < m.member_count ∧ m.memeber_keys.getD i pubkeyDefault = proposer := by
    simp [List.any_eq_true, List.mem_range]
  have hgm : ∀ j, j < 10 →
      (((List.range 10).map fun i =>
        if i < m.member_count then m.memeber_keys.getD i pubkeyDefault
        else pubkeyDefault)).getD j pubkeyDefault =
      (if j < m.member_count then m.memeber_keys.getD j pubkeyDefault
        else pubkeyDefault) := by
    intro j hj
    rw [List.getD_eq_getElem _ _ (by simpa using hj)]
    simp
  constructor
  · intro hnone
    unfold init_proposal
    dsimp only
    rw [if_pos]
    intro hany
    obtain ⟨i, hi, hp⟩ := hmem.mp hany
    exact hnone i hi hp
  · rintro ⟨i, hi, hp⟩ hnof hexp
    unfold init_proposal
    dsimp only
    rw [if_neg (not_not_intro (hmem.mpr ⟨i, hi, hp⟩)), add64_eq hnof]
    refine ⟨_, rfl, rfl, rfl, add64_eq hexp, rfl, rfl, by simp, ?_, ?_⟩
    · intro j hj
      rw [hgm j (by omega), if_pos hj]
    · intro j hj
      by_cases hj10 : j < 10
      · rw [hgm j hj10, if_neg (by omega)]
      · exact List.getD_eq_default _ _ (by simp; omega)

theorem init_proposal_spec_witness :
    (∃ p, init_proposal regAB pkA 100 0 =
        Except.ok ({ regAB with total_proposals := regAB.total_proposals + 1 }, p) ∧
      p.proposal_id = regAB.total_proposals ∧
      p.created_time = 0 ∧
      p.expiry = 0 + 100 ∧
      p.result = ProposalStatus.Active ∧
      p.votes = List.replicate 10 0 ∧
      p.active_members.length = 10 ∧
      (∀ i, i < regAB.member_count →
        p.active_members.getD i pubkeyDefault = regAB.memeber_keys.getD i pubkeyDefault) ∧
      (∀ i, regAB.member_count ≤ i →
        p.active_members.getD i pubkeyDefault = pubkeyDefault)) :=
  (init_proposal_spec regAB pkA 100 0 (by decide)).2 ⟨0, by decide, by decide⟩
    (by decide) (by decide)

/-- C10: after every successful `init_multisig` whose payload encodes a
member count N with 1 ≤ N ≤ 10 (bytes 1..8 LE of the handler's data)
and a valid threshold (byte 9), the registry's `member_count` is N
while all ten member slots — in particular the N counted ones — hold
the all-zero default key; consequently the membership scans treat the
all-zero identity as a member of the fresh registry: `init_proposal`
with the all-zero proposer succeeds. -/
theorem init_zero_sentinel_membership (ck tp : Pubkey) (b1 b2 : Nat) (data : List Nat)
    (N t dur now : Nat) (hlen : 10 ≤ data.length)
    (hN : leVal ((data.drop 1).take 8) = N) (ht : data.getD 9 0 = t)
    (h1 : 1 ≤ N) (h10 : N ≤ 10) (ht1 : 1 ≤ t) (htN : t ≤ N) :
    ∃ reg, init_multisig ck tp b1 b2 data = Except.ok reg ∧
      reg.member_count = N ∧
      reg.memeber_keys = List.replicate 10 pubkeyDefault ∧
      ∃ out, init_proposal reg pubkeyDefault dur now = Except.ok out := by
  unfold init_multisig
  dsimp only
  rw [hN, ht, if_neg (show ¬ data.length < 10 by omega),
    if_neg (show ¬ (N = 0 ∨ N > 10) by omega),
    if_neg (show ¬ (t = 0 ∨ t > N) by omega)]
  refine ⟨_, rfl, rfl, rfl, ?_⟩
  unfold init_proposal
  dsimp only
  rw [if_neg (not_not_intro (List.any_eq_true.mpr
    ⟨0, List.mem_range.mpr (by omega), by simp⟩))]
  exact ⟨_, rfl⟩

theorem init_zero_sentinel_membership_witness :
    ∃ reg, init_multisig (List.replicate 32 1) (List.replicate 32 9) 255 254
        [0, 3, 0, 0, 0, 0, 0, 0, 0, 2] = Except.ok reg ∧
      reg.member_count = 3 ∧
      reg.memeber_keys = List.replicate 10 pubkeyDefault ∧
      ∃ out, init_proposal reg pubkeyDefault 100 0 = Except.ok out :=
  init_zero_sentinel_membership (List.replicate 32 1) (List.replicate 32 9) 255 254
    [0, 3, 0, 0, 0, 0, 0, 0, 0, 2] 3 2 100 0 (by decide) (by decide) (by decide)
    (by decide) (by decide) (by decide) (by decide)

/-- C2 counterexample: the dispatcher is not total — a selector-3 or
selector-4 instruction with an empty payload makes the decode phase
index past the end of the data slice, a Rust panic that aborts without
returning any error, rather than failing with `MalformedPayload`. -/
theorem dispatcher_short_payload_panics_counterexample :
    process_instruction_decode [4] 4 = DispatchResult.panic ∧
    process_instruction_decode [3] 3 = DispatchResult.panic ∧
    DispatchResult.panic ≠ DispatchResult.err ProgramError.invalidInstructionData := by
  decide

/-- C2 amended: empty instruction data and unknown selectors (≥ 5) fail
with the decode error (`InvalidInstructionData`, covering the spec's
`UnsupportedOperation`/`MalformedPayload`); selectors 1 and 2 reject
payloads shorter than 32 bytes with the same error; but selector 3
panics (aborts without returning a result) on payloads shorter than 96
bytes — returning the error only for lengths 96..103 — and selector 4
panics on payloads of 128 bytes or fewer. -/
theorem dispatcher_decode_behavior (bytes : List Nat) (n : Nat) :
    (bytes = [] →
      process_instruction_decode bytes n =
        DispatchResult.err ProgramError.invalidInstructionData) ∧
    (∀ d rest, bytes = d :: rest → 5 ≤ d →
      process_instruction_decode bytes n =
        DispatchResult.err ProgramError.invalidInstructionData) ∧
    (∀ d rest, bytes = d :: rest → (d = 1 ∨ d = 2) → rest.length < 32 →
      process_instruction_decode bytes n =
        DispatchResult.err ProgramError.invalidInstructionData) ∧
    (∀ rest, bytes = 3 :: rest → rest.length < 96 →
      process_instruction_decode bytes n = DispatchResult.panic) ∧
    (∀ rest, bytes = 3 :: rest → 96 ≤ rest.length → rest.length < 104 →
      process_instruction_decode bytes n =
        DispatchResult.err ProgramError.invalidInstructionData) ∧
    (∀ rest, bytes = 4 :: rest → rest.length ≤ 128 →
      process_instruction_decode bytes n = DispatchResult.panic) := by
  refine ⟨?_, ?_, ?_, ?_, ?_, ?_⟩
  · intro h
    subst h
    rfl
  · intro d rest h hd
    subst h
    simp only [process_instruction_decode]
    split_ifs <;> first | rfl | (exfalso; omega)
  · rintro d rest h hd hshort
    subst h
    rcases hd with rfl | rfl <;>
      simp [process_instruction_decode, read_pubkey, hshort]
  · intro rest h hshort
    subst h
    simp [process_instruction_decode, hshort]
  · intro rest h h96 h104
    subst h
    simp [process_instruction_decode, read_u64, Nat.not_lt.mpr h96,
      show rest.length - 96 < 8 by omega]
  · intro rest h hle
    subst h
    simp [process_instruction_decode, hle]

theorem dispatcher_decode_behavior_witness :
    process_instruction_decode [3] 0 = DispatchResult.panic ∧
    process_instruction_decode [9] 0 =
      DispatchResult.err ProgramError.invalidInstructionData :=
  ⟨(dispatcher_decode_behavior [3] 0).2.2.2.1 [] rfl (by decide),
    (dispatcher_decode_behavior [9] 0).2.1 9 [] rfl (by decide)⟩
